import Mathlib

/-!
Shallow embedding of the connection-status state machine and related logic of
python-netsnmpagent (src/netsnmpagent.py, constants from src/netsnmpapi.py).

Embedded pieces:
  * the netsnmpAgentStatus enumeration (netsnmpagent.py lines 54-60);
  * the custom log handler py_log_handler (lines 142-220), including the
    priority-code-to-name table, the trailing-newline strip, the
    "Warning: "/"Error: " tag strip, and the regex pattern matches
    (re.match anchors at the start of the text; the patterns used contain
    only literal characters and ".*", so each match is expressed with
    list-prefix and list-infix tests over the character list);
  * the index-stop callback py_index_stop_callback (lines 255-268);
  * the start() method (lines 948-959): notifications that the underlying
    init_snmp call delivers synchronously are passed in as an explicit list
    and folded over the two callbacks;
  * the status gate of prepareRegistration (lines 341-345);
  * the counter masking in update() and increment() of the generated
    variable classes (lines 501-517).
-/

namespace Netsnmp

/-! ### Constants from src/netsnmpapi.py -/

def LOG_EMERG   : Nat := 0
def LOG_ALERT   : Nat := 1
def LOG_CRIT    : Nat := 2
def LOG_ERR     : Nat := 3
def LOG_WARNING : Nat := 4
def LOG_NOTICE  : Nat := 5
def LOG_INFO    : Nat := 6
def LOG_DEBUG   : Nat := 7

def SNMPD_CALLBACK_INDEX_STOP : Nat := 11

def ASN_APPLICATION : Nat := 0x40
def ASN_COUNTER     : Nat := ASN_APPLICATION ||| 1
def ASN_COUNTER64   : Nat := ASN_APPLICATION ||| 6

/-- The netsnmpAgentStatus enumeration (netsnmpagent.py lines 54-60). -/
inductive netsnmpAgentStatus
  | REGISTRATION
  | FIRSTCONNECT
  | CONNECTFAILED
  | CONNECTED
  | RECONNECTING
deriving DecidableEq, Repr

open netsnmpAgentStatus

/-- The priorities dictionary of py_log_handler (lines 160-170): maps a
numeric syslog priority to its textual description; an unknown code raises
KeyError in Python, modelled as none. -/
def priorityName : Nat → Option String
  | 0 => some "Emergency"
  | 1 => some "Alert"
  | 2 => some "Critical"
  | 3 => some "Error"
  | 4 => some "Warning"
  | 5 => some "Notice"
  | 6 => some "Info"
  | 7 => some "Debug"
  | _ => none

/-- msg.rstrip(b"\n") of line 178: remove trailing linefeed characters. -/
def rstripNewlines (s : String) : String :=
  String.mk ((s.toList.reverse.dropWhile (fun c => c = '\n')).reverse)

/-- re.sub("^(Warning|Error): *", "", s) of lines 175-179: remove one leading
"Warning:" or "Error:" tag together with the spaces that follow it. -/
def stripPrioTag (s : String) : String :=
  if List.isPrefixOf "Warning:".toList s.toList then
    String.mk ((s.toList.drop 8).dropWhile (fun c => c = ' '))
  else if List.isPrefixOf "Error:".toList s.toList then
    String.mk ((s.toList.drop 6).dropWhile (fun c => c = ' '))
  else s

/-- The full preprocessing of the raw log message into msgtext (lines 175-179). -/
def msgtextOf (rawMsg : String) : String :=
  stripPrioTag (rstripNewlines rawMsg)

/-- Contiguous-sublist test over character lists, used to express the ".*"
in the middle of the failure pattern. -/
def listInfixOf (pat : List Char) : List Char → Bool
  | [] => pat.isEmpty
  | c :: t => List.isPrefixOf pat (c :: t) || listInfixOf pat t

/-- re.match("Failed to .* the agentx master agent.*", t) of line 188: the text
starts with "Failed to " and the remainder contains " the agentx master agent". -/
def matchFailed (t : String) : Bool :=
  List.isPrefixOf "Failed to ".toList t.toList &&
  listInfixOf " the agentx master agent".toList (t.toList.drop 10)

/-- re.match("AgentX subagent connected", t) of line 205: anchored prefix match. -/
def matchConnectedMsg (t : String) : Bool :=
  List.isPrefixOf "AgentX subagent connected".toList t.toList

/-- re.match("AgentX master disconnected us.*", t) of line 208: anchored prefix
match of the literal part. -/
def matchDisconnectedMsg (t : String) : Bool :=
  List.isPrefixOf "AgentX master disconnected us".toList t.toList

/-- Result of one call of the log handler: the new agent status and, when the
message is forwarded to the log sink (the LogHandler callback or stderr,
lines 215-218), the (msgprio, msgtext) pair it is forwarded with. -/
structure LogResult where
  status : netsnmpAgentStatus
  forwarded : Option (String × String)
deriving DecidableEq, Repr

/-- The custom log handler py_log_handler (netsnmpagent.py lines 142-220),
as a function of the current agent status, the numeric priority of the log
message and the raw message text. Returns none when the priorities dictionary
lookup raises KeyError (unknown priority code). The branch condition of lines
186-188 keeps the Python operator precedence: "Warning" alone satisfies it,
"Error" additionally requires the failure pattern to match. -/
def py_log_handler (status : netsnmpAgentStatus) (priority : Nat)
    (rawMsg : String) : Option LogResult :=
  match priorityName priority with
  | none => none
  | some msgprio =>
    let msgtext := msgtextOf rawMsg
    if msgprio = "Warning" ∨ (msgprio = "Error" ∧ matchFailed msgtext = true) then
      if status = FIRSTCONNECT then
        -- lines 193-199: fatal on the first connection attempt; early
        -- return 0 before the logging code, so nothing is forwarded
        some ⟨CONNECTFAILED, none⟩
      else
        -- lines 201-203: stay at the current status and log the message
        some ⟨status, some (msgprio, msgtext)⟩
    else if msgprio = "Info" ∧ matchConnectedMsg msgtext = true then
      some ⟨CONNECTED, some (msgprio, msgtext)⟩
    else if msgprio = "Info" ∧ matchDisconnectedMsg msgtext = true then
      some ⟨RECONNECTING, some (msgprio, msgtext)⟩
    else
      some ⟨status, some (msgprio, msgtext)⟩

/-- The index-stop callback py_index_stop_callback (lines 255-268): any
SNMP_CALLBACK_APPLICATION callback with minorID SNMPD_CALLBACK_INDEX_STOP
sets the status to RECONNECTING. -/
def py_index_stop_callback (status : netsnmpAgentStatus) (minorID : Nat) :
    netsnmpAgentStatus :=
  if minorID = SNMPD_CALLBACK_INDEX_STOP then RECONNECTING else status

/-- One asynchronous notification delivered by the net-snmp runtime: either a
log message dispatched to py_log_handler, or an application callback
dispatched to py_index_stop_callback. -/
inductive Notification
  | log (priority : Nat) (rawMsg : String)
  | app (minorID : Nat)
deriving DecidableEq, Repr

/-- The status after one notification is dispatched to the registered
callbacks. A KeyError escaping py_log_handler leaves the status untouched. -/
def notifStep (s : netsnmpAgentStatus) (n : Notification) : netsnmpAgentStatus :=
  match n with
  | .log priority rawMsg =>
    match py_log_handler s priority rawMsg with
    | some r => r.status
    | none => s
  | .app minorID => py_index_stop_callback s minorID

/-- The status after a whole sequence of notifications. -/
def runNotifs (s : netsnmpAgentStatus) (ns : List Notification) :
    netsnmpAgentStatus :=
  ns.foldl notifStep s

/-- The exception message built in start() (lines 956-958), with the
MasterSocket transport endpoint formatted in. -/
def connectErrorMsg (masterSocket : String) : String :=
  "Error connecting to snmpd instance at \"" ++ masterSocket ++
  "\" -- incorrect \"MasterSocket\" or snmpd not running?"

/-- Result of start(): the final status, the message of the raised
netsnmpAgentException if any, and whether init_snmp was invoked. -/
structure StartResult where
  status : netsnmpAgentStatus
  error : Option String
  initSnmpCalled : Bool
deriving DecidableEq, Repr

/-- The start() method (netsnmpagent.py lines 948-959). The notifications
that init_snmp delivers synchronously through the registered callbacks are
passed in as the list ns and folded over notifStep; when the guard of lines
951-952 fails, init_snmp is not called and no notification is processed. -/
def start (masterSocket : String) (s : netsnmpAgentStatus)
    (ns : List Notification) : StartResult :=
  if s ≠ CONNECTED ∧ s ≠ RECONNECTING then
    let s2 := runNotifs FIRSTCONNECT ns
    if s2 = CONNECTFAILED then
      ⟨s2, some (connectErrorMsg masterSocket), true⟩
    else
      ⟨s2, none, true⟩
  else
    ⟨s, none, false⟩

/-- The status gate of prepareRegistration (lines 341-345): registering an
SNMP object is refused with an immediate netsnmpAgentException unless the
status is still REGISTRATION; returns the exception message when raised. -/
def prepareRegistrationCheck (s : netsnmpAgentStatus) : Option String :=
  if s ≠ REGISTRATION then
    some "Attempt to register SNMP object after agent has been started!"
  else
    none

/-- The counter masking of update() (lines 501-506), as a function of the
asntype of the generated variable class and the (non-negative) value: a
Counter32 value with bits at or above bit 32 is masked with 0xFFFFFFFF, a
Counter64 value with bits at or above bit 64 with 0xFFFFFFFFFFFFFFFF. -/
def update (asntype : Nat) (val : Nat) : Nat :=
  let val1 := if asntype = ASN_COUNTER ∧ val >>> 32 ≠ 0 then
    val &&& 0xFFFFFFFF else val
  let val2 := if asntype = ASN_COUNTER64 ∧ val1 >>> 64 ≠ 0 then
    val1 &&& 0xFFFFFFFFFFFFFFFF else val1
  val2

/-- increment() (lines 516-517): update with the sum of the stored value and
the count. -/
def increment (asntype : Nat) (current : Nat) (count : Nat) : Nat :=
  update asntype (current + count)

/-! ### Helper lemmas -/

/-- Whatever the message, one call of the log handler either keeps the status,
sets it to CONNECTED, sets it to RECONNECTING, or — only when the status was
FIRSTCONNECT — sets it to CONNECTFAILED. -/
lemma py_log_handler_status_cases (s : netsnmpAgentStatus) (p : Nat)
    (m : String) (r : LogResult) (h : py_log_handler s p m = some r) :
    r.status = s ∨ r.status = CONNECTED ∨ r.status = RECONNECTING ∨
    (s = FIRSTCONNECT ∧ r.status = CONNECTFAILED) := by
  unfold py_log_handler at h
  cases hp : priorityName p <;> rw [hp] at h
  · exact absurd h (by simp)
  · simp only at h
    split at h
    · split at h
      · exact Or.inr (Or.inr (Or.inr ⟨by assumption, by cases h; rfl⟩))
      · exact Or.inl (by cases h; rfl)
    · split at h
      · exact Or.inr (Or.inl (by cases h; rfl))
      · split at h
        · exact Or.inr (Or.inr (Or.inl (by cases h; rfl)))
        · exact Or.inl (by cases h; rfl)

/-- The same case analysis lifted to one notification step. -/
lemma notifStep_cases (s : netsnmpAgentStatus) (n : Notification) :
    notifStep s n = s ∨ notifStep s n = CONNECTED ∨
    notifStep s n = RECONNECTING ∨
    (s = FIRSTCONNECT ∧ notifStep s n = CONNECTFAILED) := by
  cases n with
  | log p m =>
    simp only [notifStep]
    cases hp : py_log_handler s p m with
    | none => exact Or.inl rfl
    | some r => exact py_log_handler_status_cases s p m r hp
  | app minorID =>
    simp only [notifStep, py_index_stop_callback]
    by_cases h : minorID = SNMPD_CALLBACK_INDEX_STOP
    · rw [if_pos h]; exact Or.inr (Or.inr (Or.inl rfl))
    · rw [if_neg h]; exact Or.inl rfl

/-- The pair of statuses CONNECTED / RECONNECTING is closed under one
notification step. -/
lemma notifStep_live (s : netsnmpAgentStatus) (n : Notification)
    (h : s = CONNECTED ∨ s = RECONNECTING) :
    notifStep s n = CONNECTED ∨ notifStep s n = RECONNECTING := by
  rcases notifStep_cases s n with h1 | h1 | h1 | ⟨h1, _⟩
  · rw [h1]; exact h
  · exact Or.inl h1
  · exact Or.inr h1
  · rcases h with h | h <;> rw [h] at h1 <;> cases h1

/-- Closure under whole notification sequences. -/
lemma runNotifs_live (ns : List Notification) (s : netsnmpAgentStatus)
    (h : s = CONNECTED ∨ s = RECONNECTING) :
    runNotifs s ns = CONNECTED ∨ runNotifs s ns = RECONNECTING := by
  induction ns generalizing s with
  | nil => exact h
  | cons n t ih =>
    simp only [runNotifs, List.foldl_cons] at *
    exact ih (notifStep s n) (notifStep_live s n h)

/-- The Counter32 masking of update() computes reduction modulo two to the 32. -/
lemma update_counter32 (val : Nat) : update ASN_COUNTER val = val % 2 ^ 32 := by
  have hne : ¬ (ASN_COUNTER = ASN_COUNTER64 ∧ val >>> 64 ≠ 0) := by
    rintro ⟨h, -⟩; exact absurd h (by decide)
  have hne2 : ∀ w : Nat, ¬ (ASN_COUNTER = ASN_COUNTER64 ∧ w >>> 64 ≠ 0) := by
    rintro w ⟨h, -⟩; exact absurd h (by decide)
  by_cases h : val >>> 32 = 0
  · have hlt : val < 2 ^ 32 := by
      rw [Nat.shiftRight_eq_div_pow] at h
      exact (Nat.div_eq_zero_iff (by positivity)).mp h
    simp only [update, h, hne2, ne_eq, not_true_eq_false, and_false, if_false,
      if_neg hne]
    omega
  · have hmask : val &&& 0xFFFFFFFF = val % 2 ^ 32 := by
      have : (0xFFFFFFFF : Nat) = 2 ^ 32 - 1 := by norm_num
      rw [this, Nat.and_pow_two_sub_one_eq_mod]
    simp [update, h, hne2, hmask]

/-- The Counter64 masking of update() computes reduction modulo two to the 64. -/
lemma update_counter64 (val : Nat) : update ASN_COUNTER64 val = val % 2 ^ 64 := by
  have hne : ¬ (ASN_COUNTER64 = ASN_COUNTER ∧ val >>> 32 ≠ 0) := by
    rintro ⟨h, -⟩; exact absurd h (by decide)
  by_cases h : val >>> 64 = 0
  · have hlt : val < 2 ^ 64 := by
      rw [Nat.shiftRight_eq_div_pow] at h
      exact (Nat.div_eq_zero_iff (by positivity)).mp h
    simp only [update, h, hne, ne_eq, not_true_eq_false, and_false, if_false,
      if_neg hne]
    omega
  · have hmask : val &&& 0xFFFFFFFFFFFFFFFF = val % 2 ^ 64 := by
      have : (0xFFFFFFFFFFFFFFFF : Nat) = 2 ^ 64 - 1 := by norm_num
      rw [this, Nat.and_pow_two_sub_one_eq_mod]
    simp [update, h, hne, hmask]

/-! ### Claim theorems -/

/-- C1: For a fresh agent in REGISTRATION, start() with a Warning- or
Error-priority log notification whose text matches the connect-failure
pattern delivered while the status is FIRSTCONNECT ends with status
CONNECTFAILED and raises an exception whose message contains the configured
MasterSocket transport endpoint string. -/
theorem start_firstconnect_failure_raises (sock msg : String) (p : Nat)
    (hp : p = LOG_WARNING ∨ p = LOG_ERR)
    (hm : matchFailed (msgtextOf msg) = true) :
    (start sock REGISTRATION [Notification.log p msg]).status = CONNECTFAILED ∧
    (start sock REGISTRATION [Notification.log p msg]).error =
      some (connectErrorMsg sock) ∧
    ∃ a b, connectErrorMsg sock = a ++ sock ++ b := by
  have hstep : py_log_handler FIRSTCONNECT p msg = some ⟨CONNECTFAILED, none⟩ := by
    rcases hp with h | h <;> subst h
    · rfl
    · simp [py_log_handler, LOG_ERR, priorityName, hm]
  have hrun : runNotifs FIRSTCONNECT [Notification.log p msg] = CONNECTFAILED := by
    simp [runNotifs, notifStep, hstep]
  have hs : start sock REGISTRATION [Notification.log p msg] =
      ⟨CONNECTFAILED, some (connectErrorMsg sock), true⟩ := by
    simp [start, hrun]
  rw [hs]
  exact ⟨rfl, rfl, "Error connecting to snmpd instance at \"",
    "\" -- incorrect \"MasterSocket\" or snmpd not running?", rfl⟩

/-- Witness for C1 at the concrete endpoint, priority LOG_WARNING and the
literal failure message. -/
theorem start_firstconnect_failure_raises_witness :
    (start "/var/run/agentx/master" REGISTRATION
      [Notification.log 4 "Failed to register the agentx master agent"]).status =
      CONNECTFAILED :=
  (start_firstconnect_failure_raises "/var/run/agentx/master"
    "Failed to register the agentx master agent" 4 (Or.inl rfl) (by decide)).1

/-- C2: start() with no notification delivered at all leaves the status at
FIRSTCONNECT and raises no error. -/
theorem start_without_notifications_success (sock : String) :
    start sock REGISTRATION [] = ⟨FIRSTCONNECT, none, true⟩ := rfl

/-- C3: A notification makes the status CONNECTFAILED only from FIRSTCONNECT
(or when it already was CONNECTFAILED and is merely kept); in particular a
connect-failure log received while RECONNECTING never yields CONNECTFAILED. -/
theorem connectfailed_only_entered_from_firstconnect :
    (∀ (s : netsnmpAgentStatus) (n : Notification),
        notifStep s n = CONNECTFAILED → s = FIRSTCONNECT ∨ s = CONNECTFAILED) ∧
    (∀ (p : Nat) (m : String),
        notifStep RECONNECTING (Notification.log p m) ≠ CONNECTFAILED) := by
  constructor
  · intro s n h
    rcases notifStep_cases s n with h1 | h1 | h1 | ⟨h1, h2⟩
    · exact Or.inr (h1.symm.trans h)
    · exact absurd (h1.symm.trans h) (by decide)
    · exact absurd (h1.symm.trans h) (by decide)
    · exact Or.inl h1
  · intro p m h
    rcases notifStep_cases RECONNECTING (Notification.log p m) with
      h1 | h1 | h1 | ⟨h1, h2⟩
    · exact absurd (h1.symm.trans h) (by decide)
    · exact absurd (h1.symm.trans h) (by decide)
    · exact absurd (h1.symm.trans h) (by decide)
    · exact absurd h1 (by decide)

/-- Witness for C3: the failure transition taken from FIRSTCONNECT, and the
second conjunct at a concrete connection-failure log in RECONNECTING. -/
theorem connectfailed_only_entered_from_firstconnect_witness :
    (FIRSTCONNECT = FIRSTCONNECT ∨ FIRSTCONNECT = CONNECTFAILED) ∧
    notifStep RECONNECTING
      (Notification.log LOG_WARNING "Failed to register the agentx master agent") ≠
      CONNECTFAILED :=
  ⟨connectfailed_only_entered_from_firstconnect.1 FIRSTCONNECT
      (Notification.log 4 "Failed to register the agentx master agent") (by decide),
   connectfailed_only_entered_from_firstconnect.2 LOG_WARNING
      "Failed to register the agentx master agent"⟩

/-- C4 counterexample: in REGISTRATION, an Info log whose text matches the
disconnect pattern changes the status to RECONNECTING, it does not stay at
REGISTRATION. -/
theorem registration_disconnect_counterexample :
    notifStep REGISTRATION
      (Notification.log LOG_INFO "AgentX master disconnected us") = RECONNECTING ∧
    ¬ (notifStep REGISTRATION
      (Notification.log LOG_INFO "AgentX master disconnected us") = REGISTRATION) := by
  decide

/-- C4 amended: a disconnect-pattern notification (Info disconnect log or
index-stop event) received in REGISTRATION sets the status to RECONNECTING —
the disconnect patterns are applied regardless of the current status, not
only once CONNECTED. -/
theorem disconnect_pattern_applies_in_registration :
    (∀ m : String, matchConnectedMsg (msgtextOf m) = false →
        matchDisconnectedMsg (msgtextOf m) = true →
        notifStep REGISTRATION (Notification.log LOG_INFO m) = RECONNECTING) ∧
    notifStep REGISTRATION (Notification.app SNMPD_CALLBACK_INDEX_STOP) =
      RECONNECTING := by
  constructor
  · intro m h1 h2
    simp [notifStep, py_log_handler, LOG_INFO, priorityName, h1, h2]
  · decide

/-- Witness for the amended C4 at the literal disconnect message. -/
theorem disconnect_pattern_applies_in_registration_witness :
    notifStep REGISTRATION
      (Notification.log LOG_INFO "AgentX master disconnected us") = RECONNECTING :=
  disconnect_pattern_applies_in_registration.1 "AgentX master disconnected us"
    (by decide) (by decide)

/-- C5: registering an SNMP object raises immediately exactly when the status
is no longer REGISTRATION; while the status is REGISTRATION the gate does not
raise. -/
theorem registration_only_before_start (s : netsnmpAgentStatus) :
    (s ≠ REGISTRATION → (prepareRegistrationCheck s).isSome = true) ∧
    (s = REGISTRATION → prepareRegistrationCheck s = none) := by
  constructor
  · intro h
    simp [prepareRegistrationCheck, h]
  · intro h
    simp [prepareRegistrationCheck, h]

/-- Witness for C5 at a started agent (CONNECTED) and a fresh one. -/
theorem registration_only_before_start_witness :
    ((prepareRegistrationCheck CONNECTED).isSome = true) ∧
    (prepareRegistrationCheck REGISTRATION = none) :=
  ⟨(registration_only_before_start CONNECTED).1 (by decide),
   (registration_only_before_start REGISTRATION).2 rfl⟩

/-- C6: from CONNECTED, a disconnect log or an index-stop event moves the
status to RECONNECTING, a subsequent connect-success log moves it back to
CONNECTED, and no sequence of notifications starting from CONNECTED ever
reaches CONNECTFAILED. -/
theorem connected_reconnect_cycle :
    notifStep CONNECTED
      (Notification.log LOG_INFO "AgentX master disconnected us") = RECONNECTING ∧
    notifStep RECONNECTING
      (Notification.log LOG_INFO "AgentX subagent connected") = CONNECTED ∧
    notifStep CONNECTED (Notification.app SNMPD_CALLBACK_INDEX_STOP) =
      RECONNECTING ∧
    ∀ ns : List Notification, runNotifs CONNECTED ns ≠ CONNECTFAILED := by
  refine ⟨by decide, by decide, by decide, ?_⟩
  intro ns h
  rcases runNotifs_live ns CONNECTED (Or.inl rfl) with h1 | h1 <;>
    exact absurd (h1.symm.trans h) (by decide)

/-- Witness for C6 at a concrete notification sequence. -/
theorem connected_reconnect_cycle_witness :
    runNotifs CONNECTED
      [Notification.log LOG_INFO "AgentX master disconnected us",
       Notification.log LOG_INFO "AgentX subagent connected"] ≠ CONNECTFAILED :=
  connected_reconnect_cycle.2.2.2
    [Notification.log LOG_INFO "AgentX master disconnected us",
     Notification.log LOG_INFO "AgentX subagent connected"]

/-- C7 counterexample: CONNECTFAILED is not terminal — a connect-success Info
log received in CONNECTFAILED moves the status to CONNECTED. -/
theorem connectfailed_terminal_counterexample :
    notifStep CONNECTFAILED
      (Notification.log LOG_INFO "AgentX subagent connected") = CONNECTED ∧
    CONNECTED ≠ CONNECTFAILED := by decide

/-- C7 amended: CONNECTFAILED is left again by further notifications and by
start(): a connect-success log moves it to CONNECTED, a disconnect log or an
index-stop event moves it to RECONNECTING, and calling start() again from
CONNECTFAILED re-enters FIRSTCONNECT and re-invokes init_snmp. -/
theorem connectfailed_not_terminal :
    notifStep CONNECTFAILED
      (Notification.log LOG_INFO "AgentX subagent connected") = CONNECTED ∧
    notifStep CONNECTFAILED
      (Notification.log LOG_INFO "AgentX master disconnected us") = RECONNECTING ∧
    notifStep CONNECTFAILED (Notification.app SNMPD_CALLBACK_INDEX_STOP) =
      RECONNECTING ∧
    start "/var/run/agentx/master" CONNECTFAILED [] =
      ⟨FIRSTCONNECT, none, true⟩ := by decide

/-- C8 at the failing input: a Warning-priority log message whose text matches
none of the patterns is nevertheless intercepted while the status is
FIRSTCONNECT — the Python condition parses as Warning-or-(Error-and-match),
so the status becomes CONNECTFAILED and nothing is forwarded to the log
sink. -/
theorem warning_message_intercepted_despite_no_match :
    py_log_handler FIRSTCONNECT LOG_WARNING "created blank secret" =
      some ⟨CONNECTFAILED, none⟩ ∧
    matchFailed (msgtextOf "created blank secret") = false := by decide

/-- C9: calling start() while the status is CONNECTED or RECONNECTING is a
no-op — the status is unchanged, init_snmp is not invoked and no error is
raised. -/
theorem start_noop_when_connected_or_reconnecting (sock : String)
    (s : netsnmpAgentStatus) (ns : List Notification)
    (h : s = CONNECTED ∨ s = RECONNECTING) :
    start sock s ns = ⟨s, none, false⟩ := by
  rcases h with h | h <;> subst h <;> rfl

/-- Witness for C9 at CONNECTED with a pending notification list. -/
theorem start_noop_when_connected_or_reconnecting_witness :
    start "/var/run/agentx/master" CONNECTED
      [Notification.log LOG_INFO "AgentX master disconnected us"] =
      ⟨CONNECTED, none, false⟩ :=
  start_noop_when_connected_or_reconnecting "/var/run/agentx/master" CONNECTED
    [Notification.log LOG_INFO "AgentX master disconnected us"] (Or.inl rfl)

/-- C10: update() on a Counter32 with a value of at least two to the 32
stores the value reduced modulo two to the 32, likewise for Counter64 at two
to the 64, and increment() therefore wraps instead of exceeding the width. -/
theorem counter_update_wraps :
    (∀ val : Nat, 2 ^ 32 ≤ val → update ASN_COUNTER val = val % 2 ^ 32) ∧
    (∀ val : Nat, 2 ^ 64 ≤ val → update ASN_COUNTER64 val = val % 2 ^ 64) ∧
    (∀ cur count : Nat, increment ASN_COUNTER cur count = (cur + count) % 2 ^ 32) ∧
    (∀ cur count : Nat, increment ASN_COUNTER64 cur count = (cur + count) % 2 ^ 64) :=
  ⟨fun val _ => update_counter32 val, fun val _ => update_counter64 val,
   fun cur count => update_counter32 (cur + count),
   fun cur count => update_counter64 (cur + count)⟩

/-- Witness for C10 just above the wrap boundaries. -/
theorem counter_update_wraps_witness :
    update ASN_COUNTER 4294967301 = 4294967301 % 2 ^ 32 ∧
    update ASN_COUNTER64 18446744073709551620 = 18446744073709551620 % 2 ^ 64 :=
  ⟨counter_update_wraps.1 4294967301 (by norm_num),
   counter_update_wraps.2.1 18446744073709551620 (by norm_num)⟩

end Netsnmp
